import Mathlib

/-!
# Verification of the `opzione` optional-value package

A shallow embedding of the canonical revision of the package: the
`Option[T]` container of `option.go` together with its constructors
`Some` / `None` from `opzione.go`, and the reflection helpers
`isptr`, `isptrkind`, `isnil`.

Go values are modelled untyped, as an inductive `GoVal` over a heap
(`Heap := Nat → GoVal`): a pointer stores the address of its target, so
that external mutation of an intermediate link of a reference chain is
expressed as mutation of the heap while the container's stored value is
unchanged.  Kind-specific nil states are carried directly by the
constructors.  A Go panic is modelled as `Except.error` (construction)
or as `none` (`Swap` on an empty container, a nil-pointer dereference).
The recursive detector `isnil` may diverge on cyclic chains, so its
model `isnilF` is fuel-indexed and returns `none` on fuel exhaustion.
-/

/-- Heap addresses. -/
abbrev Addr := Nat

/-- Untyped model of a Go runtime value, as seen through `reflect.Value`.
`vptr none` is a nil pointer; `vptr (some a)` points at heap cell `a`.
`viface` carries its dynamic value (`none` models a nil interface).
`invalid` models an invalid `reflect.Value`. -/
inductive GoVal where
  | vint (n : Int)
  | vptr (a : Option Addr)
  | vfunc (isNil : Bool)
  | vmap (isNil : Bool)
  | vchan (isNil : Bool)
  | viface (inner : Option GoVal)
  | vslice (isNil : Bool)
  | vuptr (isNull : Bool)
  | invalid

/-- The heap: what each address currently holds.  Aliased mutation by
other owners is modelled by evaluating the same container against a
different heap. -/
abbrev Heap := Addr → GoVal

/-- Heap update: external code writing through an alias to cell `a`. -/
def hupdate (h : Heap) (a : Addr) (w : GoVal) : Heap :=
  fun b => if b = a then w else h b

/-- `reflect.Kind` restricted to the kinds the package distinguishes. -/
inductive Kind where
  | unsafePointer
  | pointer
  | func
  | map
  | chan
  | interface
  | slice
  | int
  | invalid
deriving DecidableEq

/-- `reflect.Value.Kind()`. -/
def kind : GoVal → Kind
  | .vint _ => .int
  | .vptr _ => .pointer
  | .vfunc _ => .func
  | .vmap _ => .map
  | .vchan _ => .chan
  | .viface _ => .interface
  | .vslice _ => .slice
  | .vuptr _ => .unsafePointer
  | .invalid => .invalid

/-- `reflect.Value.IsValid()`. -/
def isValid : GoVal → Bool
  | .invalid => false
  | _ => true

/-- `isptrkind` from `option.go`: the reference-like kinds. -/
def isptrkind : Kind → Bool
  | .unsafePointer => true
  | .pointer => true
  | .func => true
  | .map => true
  | .chan => true
  | .interface => true
  | _ => false

/-- `reflect.Value.IsNil()` on the kinds the package calls it on
(shallow nil check of a single reference-like value). -/
def goIsNil : GoVal → Bool
  | .vptr a => a.isNone
  | .vfunc b => b
  | .vmap b => b
  | .vchan b => b
  | .viface i => i.isNone
  | .vslice b => b
  | .vuptr b => b
  | _ => false

/-- `reflect.Value.Elem()` for pointer and interface kinds: one level of
dereference; invalid on a nil reference and on non-dereferenceable
kinds, as in `reflect`. -/
def elem (h : Heap) : GoVal → GoVal
  | .vptr (some a) => h a
  | .viface (some w) => w
  | _ => .invalid

/-- `isnil` from `option.go` (the recursive deep absence detector),
indexed by fuel because the Go original recurses through the live heap
and need not terminate on cyclic chains; `none` models fuel
exhaustion (potential divergence). -/
def isnilF (h : Heap) : Nat → GoVal → Option Bool
  | 0, _ => none
  | fuel + 1, v =>
    match v with
    | .invalid => some true
    | .vuptr b => some b
    | .vptr none => some true
    | .vptr (some a) => isnilF h fuel (h a)
    | .vfunc b => some b
    | .vmap b => some b
    | .vchan b => some b
    | .viface i => some i.isNone
    | .vslice _ => some false
    | .vint _ => some false

/-- The container `Option[T]` of `option.go`: `v` is the stored slot
(`none` models the nil `*T`), `ptrtyp` and `track` the classification
fixed at construction, `validfn` the optional custom validator. -/
structure OptionC where
  v : Option GoVal
  ptrtyp : Bool
  track : Bool
  validfn : Option (GoVal → Bool)

/-- `Option.Validate` from `option.go`: installs the custom validator. -/
def Validate (o : OptionC) (f : GoVal → Bool) : OptionC :=
  { o with validfn := some f }

/-- `Option.IsNone` from `option.go`.  Faithful to the final revision:
inside the `ptrtyp` branch the assignment `ok = isnil(val)` guarded by
`o.track` is immediately overwritten by `ok = val.IsNil()`, so only the
shallow check ever reaches the verdict and the heap is never consulted;
the parameter `h` is kept to mirror the call shape. -/
def IsNone (h : Heap) (o : OptionC) : Bool :=
  match o.v with
  | none => true
  | some val =>
    let ok : Bool := if o.ptrtyp then goIsNil val else false
    if ok then true
    else
      match o.validfn with
      | some f => f val
      | none => false

/-- `Some` from `opzione.go`, fuel-indexed through `isnilF`.  The outer
`none` models divergence of the `isnil` call; `Except.error` models the
two panics (`isptr` on an invalid value, and the nil rejection). -/
def SomeF (h : Heap) (fuel : Nat) (v : GoVal) : Option (Except String OptionC) :=
  if isValid v = false then
    some (.error "cannot determine t; invalid value detected")
  else if isptrkind (kind v) then
    match isnilF h fuel v with
    | none => none
    | some true => some (.error "nil pointer cannot be used to construct Some")
    | some false =>
      match kind v with
      | .unsafePointer => some (.ok ⟨some v, true, false, none⟩)
      | .pointer => some (.ok ⟨some v, true, isptrkind (kind (elem h v)), none⟩)
      | .interface => some (.ok ⟨some v, true, isptrkind (kind (elem h v)), none⟩)
      | _ => some (.ok ⟨some v, true, true, none⟩)
  else some (.ok ⟨some v, false, false, none⟩)

/-- `None` from `opzione.go`.  `zero` is the zero value of the element
type `T` (for every reference-like `T` the zero value is nil, and for an
interface type it is an invalid `reflect.Value`, on which `isptr`
panics).  Note `val.Elem().Kind()` on a nil zero pointer is `Invalid`,
so a `None` pointer container always gets `track = false`. -/
def NoneC (h : Heap) (zero : GoVal) : Except String OptionC :=
  if isValid zero = false then
    .error "cannot determine t; invalid value detected"
  else if isptrkind (kind zero) then
    match kind zero with
    | .unsafePointer => .ok ⟨none, true, false, none⟩
    | .pointer => .ok ⟨none, true, isptrkind (kind (elem h zero)), none⟩
    | .interface => .ok ⟨none, true, isptrkind (kind (elem h zero)), none⟩
    | _ => .ok ⟨none, true, true, none⟩
  else .ok ⟨none, false, false, none⟩

/-- `Option.Unwrap` from `option.go`: `none` models the panic on an
absent optional. -/
def Unwrap (h : Heap) (o : OptionC) : Option GoVal :=
  if IsNone h o then none else o.v

/-- `Option.Value` from `option.go`: `none` models the
`ErrNoneOptional` branch. -/
def Value (h : Heap) (o : OptionC) : Option GoVal :=
  if IsNone h o then none else o.v

/-- `Option.Swap` from `option.go`.  The body reads `t = *o.v` before
any emptiness test, so on an empty container (`o.v == nil`) it
dereferences a nil pointer: that runtime panic is modelled by `none`.
Otherwise the slot is unconditionally replaced by `v`. -/
def Swap (o : OptionC) (v : GoVal) : Option (GoVal × OptionC) :=
  match o.v with
  | none => none
  | some t => some (t, { o with v := some v })

/-- Result of `Option.Take`: the returned `*T` (`none` models a nil
return), whether `ErrNoneOptional` was returned, and the container
afterwards. -/
structure TakeResult where
  ret : Option GoVal
  err : Bool
  after : OptionC

/-- `Option.Take` from `option.go`. -/
def Take (h : Heap) (o : OptionC) : TakeResult :=
  if IsNone h o then ⟨none, true, o⟩
  else ⟨o.v, false, { o with v := none }⟩

/-- One hop of a reference chain: a non-nil pointer moves to its heap
target, everything else is left in place. -/
def chainStep (h : Heap) (v : GoVal) : GoVal :=
  match v with
  | .vptr (some a) => h a
  | w => w

/-- `n` hops of the reference chain starting at `v`. -/
def chain (h : Heap) (v : GoVal) : Nat → GoVal
  | 0 => v
  | n + 1 => chainStep h (chain h v n)

/-- A chain element on which the detector does not recurse further. -/
def isTerminal : GoVal → Bool
  | .vptr (some _) => false
  | _ => true

/-- The kind-specific verdict of the detector on a terminal value. -/
def isnilLeaf : GoVal → Bool
  | .invalid => true
  | .vuptr b => b
  | .vptr none => true
  | .vptr (some _) => false
  | .vfunc b => b
  | .vmap b => b
  | .vchan b => b
  | .viface i => i.isNone
  | .vslice _ => false
  | .vint _ => false

/-! ## Shared concrete material -/

/-- An everywhere-invalid heap, used where the heap is irrelevant. -/
def hEmpty : Heap := fun _ => .invalid

/-! ## C1 -/

/-- Heap for the DEEP scenario of the spec: cell 0 holds the int 10,
cell 1 holds the inner pointer `p = &a`; the wrapped value is
`pp = &p`, i.e. `vptr (some 1)`. -/
def hC1a : Heap := fun a =>
  match a with
  | 0 => .vint 10
  | 1 => .vptr (some 0)
  | _ => .invalid

/-- The same world after external code sets `p = nil`. -/
def hC1b : Heap := hupdate hC1a 1 (.vptr none)

/-- The same world after `p` is reset to a valid reference. -/
def hC1c : Heap := hupdate hC1b 1 (.vptr (some 0))

/-- The container `Some(&p)` builds: DEEP classification
(`ptrtyp = true`, `track = true`). -/
def optC1 : OptionC := ⟨some (.vptr (some 1)), true, true, none⟩

/-- C1: the DEEP guarantee fails on the code.  `Some(&p)` classifies the
container as tracked, and the detector run on the live chain after
`p = nil` reports absence (`isnilF … = some true`), but `IsNone` still
returns `false`, because the `ok = isnil(val)` result inside `IsNone` is
dead-stored and overwritten by the shallow `ok = val.IsNil()`.  The
claim (and the package's own doc example) requires `true` there. -/
theorem C1_deep_tracking_code_bug :
    SomeF hC1a 3 (.vptr (some 1)) = some (.ok optC1) ∧
    IsNone hC1a optC1 = false ∧
    isnilF hC1b 3 (.vptr (some 1)) = some true ∧
    IsNone hC1b optC1 = false ∧
    IsNone hC1c optC1 = false :=
  ⟨rfl, rfl, rfl, rfl, rfl⟩

/-! ## C2 -/

/-- The container `None[*int]()` builds: empty slot, `ptrtyp = true`,
and `track = false` because `Elem()` of the nil zero pointer is
invalid. -/
def optC2 : OptionC := ⟨none, true, false, none⟩

/-- A present plain-value container, to be emptied by `Take`. -/
def optC2v : OptionC := ⟨some (.vint 5), false, false, none⟩

/-- C2: `Swap` on an absent container does not return the zero value —
it panics.  The body executes `t = *o.v` before any emptiness check, so
on a container whose slot is nil (one built by `None`, or one emptied
by a prior `Take`) it dereferences a nil pointer (modelled `none`).
The claim, the `Optional` interface documentation and the superseded
`Simple`/`Chained` revisions all say it returns the zero value and
leaves the container present holding `x`. -/
theorem C2_swap_on_empty_code_bug :
    NoneC hEmpty (.vptr none) = .ok optC2 ∧
    Swap optC2 (.vptr (some 0)) = none ∧
    Take hEmpty optC2v = ⟨some (.vint 5), false, ⟨none, false, false, none⟩⟩ ∧
    Swap ⟨none, false, false, none⟩ (.vint 7) = none :=
  ⟨rfl, rfl, rfl, rfl⟩

/-! ## C5 -/

/-- Heap for the swap-an-absent-reference scenario: cell 0 the int,
cell 1 the live inner pointer `p`, cell 2 a nil inner pointer `q`. -/
def hC5 : Heap := fun a =>
  match a with
  | 0 => .vint 10
  | 1 => .vptr (some 0)
  | 2 => .vptr none
  | _ => .invalid

/-- The container `Some(&p)` builds over `hC5`. -/
def optC5 : OptionC := ⟨some (.vptr (some 1)), true, true, none⟩

/-- The same container after `Swap(&q)`. -/
def optC5' : OptionC := ⟨some (.vptr (some 2)), true, true, none⟩

/-- C5: after `Swap(newValue)` the slot does hold exactly `newValue`
(first conjuncts), but for a `newValue` that is a non-nil pointer to a
nil pointer the next `IsNone` returns `false`, although the detector
reports the value absent (`isnilF … = some true`): the re-run of the
detector inside `IsNone` is dead code (its result is overwritten by the
shallow check), while the claim and `Swap`'s own doc comment ("If v is
a nil pointer or dereferences to nil … subsequent calls to IsNone will
return true") require `true`. -/
theorem C5_swap_verdict_code_bug :
    SomeF hC5 3 (.vptr (some 1)) = some (.ok optC5) ∧
    Swap optC5 (.vptr (some 2)) = some (.vptr (some 1), optC5') ∧
    optC5'.v = some (.vptr (some 2)) ∧
    isnilF hC5 3 (.vptr (some 2)) = some true ∧
    IsNone hC5 optC5' = false :=
  ⟨rfl, rfl, rfl, rfl, rfl⟩

/-! ## C3 -/

/-- C3: `Some` fatally rejects every reference-kind value on which the
detector reports absence (in particular a nil pointer, map, func, chan,
or a nested pointer to nil, all of which satisfy the hypotheses), while
a nil slice is not reference-kind, is always accepted, and the
resulting container is present. -/
theorem C3_some_rejects_absent (h : Heap) (fuel : Nat) (v : GoVal) (b : Bool) :
    (isptrkind (kind v) = true → isnilF h fuel v = some true →
      SomeF h fuel v = some (.error "nil pointer cannot be used to construct Some")) ∧
    SomeF h fuel (.vslice b) = some (.ok ⟨some (.vslice b), false, false, none⟩) ∧
    IsNone h ⟨some (.vslice b), false, false, none⟩ = false := by
  refine ⟨fun hk hnil => ?_, ?_, rfl⟩
  · have hv : isValid v = true := by
      cases v <;> simp_all [isValid, kind, isptrkind]
    simp [SomeF, hv, hk, hnil]
  · simp [SomeF, isValid, kind, isptrkind]

/-- Witness for C3 at the concrete input of a directly-nil map. -/
theorem C3_some_rejects_absent_witness :
    isptrkind (kind (GoVal.vmap true)) = true ∧
    isnilF hEmpty 1 (GoVal.vmap true) = some true ∧
    SomeF hEmpty 1 (GoVal.vmap true) =
      some (.error "nil pointer cannot be used to construct Some") :=
  ⟨rfl, rfl, (C3_some_rejects_absent hEmpty 1 (GoVal.vmap true) true).1 rfl rfl⟩

/-! ## C4 -/

/-- C4: `Take` on a container whose `IsNone` is true at call time
returns nil with the error and leaves the container unchanged, so a
repeated call gives the identical result; on a present container it
returns the stored slot, clears it, and every subsequent `IsNone` (over
any heap) is true. -/
theorem C4_take_behaviour (h : Heap) (o : OptionC) :
    (IsNone h o = true →
      Take h o = ⟨none, true, o⟩ ∧ Take h (Take h o).after = Take h o) ∧
    (IsNone h o = false →
      (Take h o).err = false ∧ (Take h o).ret = o.v ∧
      (Take h o).after = { o with v := none } ∧
      ∀ h' : Heap, IsNone h' (Take h o).after = true) := by
  constructor
  · intro hno
    have h1 : Take h o = ⟨none, true, o⟩ := by simp [Take, hno]
    exact ⟨h1, by rw [h1]; exact h1⟩
  · intro hno
    have ht : Take h o = ⟨o.v, false, { o with v := none }⟩ := by simp [Take, hno]
    rw [ht]
    exact ⟨rfl, rfl, rfl, fun h' => rfl⟩

/-- A concrete present plain-value container for the C4 witness. -/
def optC4 : OptionC := ⟨some (.vint 5), false, false, none⟩

/-- Witness for C4 on a concrete present container. -/
theorem C4_take_behaviour_witness :
    IsNone hEmpty optC4 = false ∧
    ((Take hEmpty optC4).err = false ∧ (Take hEmpty optC4).ret = optC4.v ∧
      (Take hEmpty optC4).after = { optC4 with v := none } ∧
      ∀ h' : Heap, IsNone h' (Take hEmpty optC4).after = true) :=
  ⟨rfl, (C4_take_behaviour hEmpty optC4).2 rfl⟩

/-! ## C6 -/

/-- Computation rule of `SomeF` on a non-nil pointer argument. -/
theorem SomeF_ptr (h : Heap) (fuel : Nat) (a : Addr) :
    SomeF h fuel (.vptr (some a)) =
      match isnilF h fuel (.vptr (some a)) with
      | none => none
      | some true => some (.error "nil pointer cannot be used to construct Some")
      | some false =>
          some (.ok ⟨some (.vptr (some a)), true, isptrkind (kind (h a)), none⟩) :=
  rfl

/-- C6: a container wrapped from a single pointer whose immediate
target is not reference-like is classified SHALLOW (`track = false`),
and its verdict depends only on the stored reference itself: over every
heap (arbitrary mutation at or beyond one dereference) `IsNone` stays
`false`, since the stored pointer is non-nil. -/
theorem C6_shallow_blind (h : Heap) (fuel : Nat) (a : Addr) (o : OptionC)
    (hplain : isptrkind (kind (h a)) = false)
    (hmk : SomeF h fuel (.vptr (some a)) = some (.ok o)) :
    o = ⟨some (.vptr (some a)), true, false, none⟩ ∧
    ∀ h' : Heap, IsNone h' o = false := by
  rw [SomeF_ptr] at hmk
  cases hni : isnilF h fuel (GoVal.vptr (some a)) with
  | none => rw [hni] at hmk; cases hmk
  | some b =>
    rw [hni] at hmk
    cases b
    · rw [hplain] at hmk
      simp only [Option.some.injEq, Except.ok.injEq] at hmk
      exact ⟨hmk.symm, fun h' => hmk ▸ rfl⟩
    · cases hmk

/-- Heap for the C6 witness: cell 0 holds a plain int. -/
def hC6 : Heap := fun a =>
  match a with
  | 0 => .vint 10
  | _ => .invalid

/-- The SHALLOW container the C6 witness constructs. -/
def optC6 : OptionC := ⟨some (.vptr (some 0)), true, false, none⟩

/-- Witness for C6 on a concrete pointer-to-int container. -/
theorem C6_shallow_blind_witness :
    isptrkind (kind (hC6 0)) = false ∧
    SomeF hC6 2 (.vptr (some 0)) = some (.ok optC6) ∧
    (optC6 = ⟨some (.vptr (some 0)), true, false, none⟩ ∧
      ∀ h' : Heap, IsNone h' optC6 = false) :=
  ⟨rfl, rfl, C6_shallow_blind hC6 2 0 optC6 rfl rfl⟩

/-! ## C7 -/

/-- C7: no operation that yields a container changes the classification
fields: `Validate`, every successful `Swap`, and `Take` (in both
branches) preserve `ptrtyp` and `track`.  The remaining public
operations (`IsNone`, `Value`, `Unwrap`, `With`, `WithNone`, `Assign`)
assign no container field at all in the source and are embedded as
pure observers. -/
theorem C7_classification_fixed (h : Heap) (o : OptionC) (v : GoVal) (f : GoVal → Bool) :
    ((Validate o f).ptrtyp = o.ptrtyp ∧ (Validate o f).track = o.track) ∧
    (∀ t o', Swap o v = some (t, o') → o'.ptrtyp = o.ptrtyp ∧ o'.track = o.track) ∧
    ((Take h o).after.ptrtyp = o.ptrtyp ∧ (Take h o).after.track = o.track) := by
  refine ⟨⟨rfl, rfl⟩, ?_, ?_, ?_⟩
  · intro t o' hs
    cases hv : o.v with
    | none => rw [Swap, hv] at hs; cases hs
    | some t0 =>
      rw [Swap, hv] at hs
      simp only [Option.some.injEq, Prod.mk.injEq] at hs
      rw [← hs.2]
      exact ⟨rfl, rfl⟩
  · simp only [Take]
    split <;> rfl
  · simp only [Take]
    split <;> rfl

/-- A concrete present container for the C7 witness. -/
def optC7 : OptionC := ⟨some (.vint 0), false, true, none⟩

/-- A constant validator used by witnesses. -/
def fFalse : GoVal → Bool := fun _ => false

/-- Witness for C7 on a concrete container, discharging the `Swap`
hypothesis with a successful concrete swap. -/
theorem C7_classification_fixed_witness :
    Swap optC7 (.vint 1) = some (.vint 0, ⟨some (.vint 1), false, true, none⟩) ∧
    ((⟨some (.vint 1), false, true, none⟩ : OptionC).ptrtyp = optC7.ptrtyp ∧
      (⟨some (.vint 1), false, true, none⟩ : OptionC).track = optC7.track) ∧
    ((Take hEmpty optC7).after.ptrtyp = optC7.ptrtyp ∧
      (Take hEmpty optC7).after.track = optC7.track) :=
  ⟨rfl,
   (C7_classification_fixed hEmpty optC7 (.vint 1) fFalse).2.1 (.vint 0)
     ⟨some (.vint 1), false, true, none⟩ rfl,
   (C7_classification_fixed hEmpty optC7 (.vint 1) fFalse).2.2⟩

/-! ## C8 -/

/-- C8: for every valid, non-reference-kind value `v`, `Some(v)`
constructs a plain-value container without panicking (regardless of
fuel: the detector is never consulted), and `Unwrap` returns exactly
`v` without the fatal unwrap violation. -/
theorem C8_roundtrip (h : Heap) (fuel : Nat) (v : GoVal)
    (hv : isValid v = true) (hp : isptrkind (kind v) = false) :
    SomeF h fuel v = some (.ok ⟨some v, false, false, none⟩) ∧
    Unwrap h ⟨some v, false, false, none⟩ = some v := by
  refine ⟨by simp [SomeF, hv, hp], ?_⟩
  cases v <;> rfl

/-- Witness for C8 at the concrete plain value 7. -/
theorem C8_roundtrip_witness :
    isValid (GoVal.vint 7) = true ∧ isptrkind (kind (GoVal.vint 7)) = false ∧
    (SomeF hEmpty 0 (GoVal.vint 7) = some (.ok ⟨some (.vint 7), false, false, none⟩) ∧
      Unwrap hEmpty ⟨some (.vint 7), false, false, none⟩ = some (.vint 7)) :=
  ⟨rfl, rfl, C8_roundtrip hEmpty 0 (GoVal.vint 7) rfl rfl⟩

/-! ## C9 -/

/-- On a terminal value the detector answers in one step with the
kind-specific leaf verdict, whatever the remaining fuel. -/
theorem isnilF_leaf (h : Heap) (fuel : Nat) (v : GoVal)
    (hterm : isTerminal v = true) :
    isnilF h (fuel + 1) v = some (isnilLeaf v) := by
  cases v with
  | vptr a =>
    cases a with
    | none => rfl
    | some x => simp [isTerminal] at hterm
  | vint n => rfl
  | vfunc b => rfl
  | vmap b => rfl
  | vchan b => rfl
  | viface i => rfl
  | vslice b => rfl
  | vuptr b => rfl
  | invalid => rfl

/-- Hopping first and then iterating is iterating one step longer. -/
theorem chain_shift (h : Heap) (v : GoVal) (n : Nat) :
    chain h (chainStep h v) n = chain h v (n + 1) := by
  induction n with
  | zero => rfl
  | succ n ih => simp [chain, ih]

/-- C9: the detector terminates on every reference chain of finite
depth: if iterating the hop function from the stored value reaches a
terminal (non-pointer) link after `n` hops, then `isnil` returns a
definite, fuel-independent verdict for every fuel beyond `n`. -/
theorem C9_isnil_terminates (h : Heap) (v : GoVal) (n : Nat)
    (hterm : isTerminal (chain h v n) = true) :
    ∃ b : Bool, ∀ fuel : Nat, n < fuel → isnilF h fuel v = some b := by
  induction n generalizing v with
  | zero =>
    refine ⟨isnilLeaf v, fun fuel hf => ?_⟩
    obtain ⟨m, rfl⟩ : ∃ m, fuel = m + 1 := ⟨fuel - 1, by omega⟩
    exact isnilF_leaf h m v hterm
  | succ n ih =>
    by_cases hv : isTerminal v = true
    · refine ⟨isnilLeaf v, fun fuel hf => ?_⟩
      obtain ⟨m, rfl⟩ : ∃ m, fuel = m + 1 := ⟨fuel - 1, by omega⟩
      exact isnilF_leaf h m v hv
    · obtain ⟨a, rfl⟩ : ∃ a, v = .vptr (some a) := by
        cases v with
        | vptr a =>
          cases a with
          | none => exact absurd rfl hv
          | some x => exact ⟨x, rfl⟩
        | vint n => exact absurd rfl hv
        | vfunc b => exact absurd rfl hv
        | vmap b => exact absurd rfl hv
        | vchan b => exact absurd rfl hv
        | viface i => exact absurd rfl hv
        | vslice b => exact absurd rfl hv
        | vuptr b => exact absurd rfl hv
        | invalid => exact absurd rfl hv
      have hterm' : isTerminal (chain h (h a) n) = true := by
        have hs := chain_shift h (.vptr (some a)) n
        rw [show chainStep h (.vptr (some a)) = h a from rfl] at hs
        rw [hs]
        exact hterm
      obtain ⟨b, hb⟩ := ih (h a) hterm'
      refine ⟨b, fun fuel hf => ?_⟩
      obtain ⟨m, rfl⟩ : ∃ m, fuel = m + 1 := ⟨fuel - 1, by omega⟩
      exact hb m (by omega)

/-- Heap for the C9 witness: every cell holds a plain int. -/
def hC9 : Heap := fun _ => .vint 0

/-- Witness for C9 on a concrete one-hop chain. -/
theorem C9_isnil_terminates_witness :
    isTerminal (chain hC9 (.vptr (some 0)) 1) = true ∧
    ∃ b : Bool, ∀ fuel : Nat, 1 < fuel → isnilF hC9 fuel (.vptr (some 0)) = some b :=
  ⟨rfl, C9_isnil_terminates hC9 (.vptr (some 0)) 1 rfl⟩

/-! ## C10 -/

/-- C10: with a validator `f` installed via `Validate`, `IsNone` on a
container whose stored value passes the nil checks that gate the
verdict (slot non-empty, and the shallow reference check for
reference-classified containers) returns exactly `f` of the stored
value; and `IsNone` is `true` — independently of `f`, so the validator
is never consulted — when the slot is empty or a gating nil check
already reports absence. -/
theorem C10_validfn_gate (h : Heap) (o : OptionC) (f : GoVal → Bool) (val : GoVal) :
    (o.v = some val → (o.ptrtyp = true → goIsNil val = false) →
      IsNone h (Validate o f) = f val) ∧
    (o.v = none → IsNone h (Validate o f) = true) ∧
    (o.v = some val → o.ptrtyp = true → goIsNil val = true →
      IsNone h (Validate o f) = true) := by
  obtain ⟨ov, pt, tr, vf⟩ := o
  refine ⟨?_, ?_, ?_⟩
  · intro h1 h2
    cases h1
    cases pt with
    | false => rfl
    | true => simp [IsNone, Validate, h2 rfl]
  · intro h1
    cases h1
    rfl
  · intro h1 h2 h3
    cases h1
    cases h2
    simp [IsNone, Validate, h3]

/-- A constant validator rejecting every value, for the C10 witness. -/
def fTrue : GoVal → Bool := fun _ => true

/-- A concrete plain-value container for the C10 witness. -/
def optC10 : OptionC := ⟨some (.vint 3), false, false, none⟩

/-- Witness for C10: the installed validator alone decides the
verdict on a value that passes the gating nil checks. -/
theorem C10_validfn_gate_witness :
    optC10.v = some (GoVal.vint 3) ∧
    (optC10.ptrtyp = true → goIsNil (GoVal.vint 3) = false) ∧
    IsNone hEmpty (Validate optC10 fTrue) = fTrue (GoVal.vint 3) :=
  ⟨rfl, fun _ => rfl,
   (C10_validfn_gate hEmpty optC10 fTrue (GoVal.vint 3)).1 rfl (fun _ => rfl)⟩
